import Mathlib

/-!
Verification development for the boringproxy edge dispatcher, HTTP reverse
proxy, HTTP-to-HTTPS redirector, DNS-bootstrap callback handler and startup
initialisation.  Go code is shallowly embedded: pure control flow is
transcribed into Lean functions, and the results of external effects
(network reads, TCP dials, JSON codecs, the record store) are passed in as
explicit arguments, so each embedded function maps the outcomes of its
effectful calls to the observable behaviour of the original function.
-/

namespace Boringproxy

/-- A tunnel record.  Field names follow the Go struct as used in
`boringproxy.go` (`tunnel.TunnelPort`, `tunnel.TlsTermination`) and in
`proxyRequest` (`tunnel.ClientAddress`, `tunnel.ClientPort`,
`tunnel.AuthUsername`, `tunnel.AuthPassword`); the full field set is given
by the spec's data model (section 3). -/
structure Tunnel where
  TunnelPort : Nat
  ClientAddress : String
  ClientPort : Nat
  AuthUsername : String
  AuthPassword : String
  TlsTermination : String
  deriving DecidableEq

/-- Modelled from the spec: the result of `peek_client_hello` (component A,
whose source file is not under src/) carries the SNI `ServerName`, which may
be empty when the ClientHello lacks the extension. -/
structure ClientHello where
  ServerName : String
  deriving DecidableEq

/-- Modelled from the spec: `peek_client_hello` fails with `malformed_hello`
(not TLS, truncated record, bad handshake type) or `io_error`. -/
inductive PeekError where
  | malformed_hello (msg : String)
  | io_error (msg : String)
  deriving DecidableEq

/-- What `handleConnection` (boringproxy.go:458) does with an accepted
connection: log the peek error and return, splice the replayed stream to a
TCP connection dialed to the loopback (`"localhost:<port>"`,
`passthroughRequest`, boringproxy.go:477), or submit the replayed
connection to the passthrough listener (`p.httpListener.PassConn`). -/
inductive DispatchAction where
  | logAndReturn
  | splice (port : Nat)
  | submit
  deriving DecidableEq

/-- The dispatcher's observable outcome per accepted connection.
`clientConnClosed` records whether `handleConnection` itself called
`Close()` on the accepted socket before returning; the Go function contains
no such call on any path. -/
structure DispatchOutcome where
  action : DispatchAction
  clientConnClosed : Bool
  deriving DecidableEq

/-- Embedding of `handleConnection` (boringproxy.go:458-475).  `peek` is the
result of `peekClientHello(clientConn)`; `reg` is `p.db.GetTunnel`
(Go's `(tunnel, exists)` pair is an `Option`).  On peek error the Go code
runs `log.Println(...); return` with no `Close()`.  Otherwise, when the
lookup succeeds and `TlsTermination` is `"client"` or `"passthrough"`, it
calls `passthroughRequest` (dial `localhost:<TunnelPort>` and splice);
every other case calls `p.httpListener.PassConn(passConn)`. -/
def handleConnection (peek : Except PeekError ClientHello)
    (reg : String → Option Tunnel) : DispatchOutcome :=
  match peek with
  | .error _ => { action := .logAndReturn, clientConnClosed := false }
  | .ok clientHello =>
    match reg clientHello.ServerName with
    | some tunnel =>
      if tunnel.TlsTermination = "client" ∨ tunnel.TlsTermination = "passthrough" then
        { action := .splice tunnel.TunnelPort, clientConnClosed := false }
      else
        { action := .submit, clientConnClosed := false }
    | none => { action := .submit, clientConnClosed := false }

/-- The upstream address formatted by `passthroughRequest`
(boringproxy.go:479): the loopback name at the tunnel's port. -/
def passthroughUpstreamAddr (tunnel : Tunnel) : String :=
  "localhost:" ++ toString tunnel.TunnelPort

/-- Claim C1: after the ClientHello is peeked, the dispatcher splices the
replayed connection to a TCP connection opened to the loopback at
`tunnel_port` (the Go code dials `"localhost:<TunnelPort>"`, which resolves
to 127.0.0.1) exactly when the registry holds a tunnel for the SNI
`ServerName` whose `tls_termination` is `"client"` or `"passthrough"`; in
that case the connection is never submitted to the passthrough listener,
and in every other case (tunnel with another termination mode, no matching
tunnel, or empty SNI with no tunnel registered under the empty name) the
replayed connection is submitted to the passthrough listener for local TLS
termination. -/
theorem handleConnection_sni_dispatch (reg : String → Option Tunnel)
    (clientHello : ClientHello) :
    (∀ t, reg clientHello.ServerName = some t →
      (t.TlsTermination = "client" ∨ t.TlsTermination = "passthrough") →
      handleConnection (.ok clientHello) reg =
        { action := .splice t.TunnelPort, clientConnClosed := false } ∧
      (handleConnection (.ok clientHello) reg).action ≠ .submit) ∧
    (∀ t, reg clientHello.ServerName = some t →
      t.TlsTermination ≠ "client" → t.TlsTermination ≠ "passthrough" →
      handleConnection (.ok clientHello) reg =
        { action := .submit, clientConnClosed := false }) ∧
    (reg clientHello.ServerName = none →
      handleConnection (.ok clientHello) reg =
        { action := .submit, clientConnClosed := false }) ∧
    (clientHello.ServerName = "" → reg "" = none →
      handleConnection (.ok clientHello) reg =
        { action := .submit, clientConnClosed := false }) := by
  refine ⟨?_, ?_, ?_, ?_⟩
  · intro t ht hterm
    constructor
    · simp [handleConnection, ht, hterm]
    · simp [handleConnection, ht, hterm]
  · intro t ht hc hp
    have hneg : ¬(t.TlsTermination = "client" ∨ t.TlsTermination = "passthrough") := by
      intro h
      cases h with
      | inl h => exact hc h
      | inr h => exact hp h
    simp [handleConnection, ht, hneg]
  · intro hnone
    simp [handleConnection, hnone]
  · intro hsni hnone
    simp [handleConnection, hsni, hnone]

/-- A concrete passthrough tunnel at loopback port 9001. -/
def tunW : Tunnel :=
  { TunnelPort := 9001, ClientAddress := "a.example", ClientPort := 443,
    AuthUsername := "", AuthPassword := "",
    TlsTermination := "passthrough" }

/-- A concrete registry holding a single passthrough tunnel for
`"a.example"` at loopback port 9001. -/
def regW : String → Option Tunnel := fun s =>
  if s = "a.example" then some tunW else none

/-- Witness for C1 at concrete inputs: SNI `"a.example"` is spliced to port
9001, SNI `"z.example"` (no tunnel) and the empty SNI are submitted. -/
theorem handleConnection_sni_dispatch_witness :
    handleConnection (.ok { ServerName := "a.example" }) regW =
      { action := .splice 9001, clientConnClosed := false } ∧
    handleConnection (.ok { ServerName := "z.example" }) regW =
      { action := .submit, clientConnClosed := false } ∧
    handleConnection (.ok { ServerName := "" }) regW =
      { action := .submit, clientConnClosed := false } := by
  refine ⟨?_, ?_, ?_⟩
  · exact ((handleConnection_sni_dispatch regW { ServerName := "a.example" }).1
      tunW (by decide) (Or.inr rfl)).1
  · exact (handleConnection_sni_dispatch regW { ServerName := "z.example" }).2.2.1
      (by decide)
  · exact (handleConnection_sni_dispatch regW { ServerName := "" }).2.2.2
      rfl (by decide)

/-- Claim C2 (code behaviour at the failing input): when ClientHello
peeking fails, `handleConnection` logs the error and returns, but it does
NOT close the accepted socket: `clientConnClosed` is `false`.  This holds
for both error kinds and for every registry, contradicting the claim that
the accepted socket is closed on this exit path. -/
theorem handleConnection_peek_error_leaves_conn_open
    (e : PeekError) (reg : String → Option Tunnel) :
    handleConnection (.error e) reg =
      { action := .logAndReturn, clientConnClosed := false } := by
  simp [handleConnection]

/-! ## HTTP reverse proxy (`proxyRequest`, src/unnamed/part_002) -/

/-- The downstream HTTP request as `proxyRequest` observes it:
`r.Method`, `r.Host`, `r.URL.RequestURI()`, `r.Header`
(`map[string][]string`, modelled as a function to value lists) and
`r.BasicAuth()` (`(username, password, ok)` modelled as an `Option`). -/
structure Request where
  Method : String
  Host : String
  RequestURI : String
  Header : String → List String

  BasicAuth : Option (String × String)

/-- The response `httpClient.Do` returns on success: status code, headers
and body bytes. -/
structure UpstreamResponse where
  StatusCode : Nat
  Header : String → List String
  Body : List Nat

/-- The request `proxyRequest` issues to the loopback backend:
method, URL, the `Host` header (Go's `req.Host` field), the header map and
the fully buffered body. -/
structure UpstreamRequest where
  Method : String
  Url : String
  Host : String
  Header : String → List String
  Body : List Nat

/-- Body of the downstream response: error text written with
`io.WriteString`, or the bytes copied from the upstream body. -/
inductive RespBody where
  | text (s : String)
  | bytes (b : List Nat)

/-- Observable outcome of `proxyRequest`: downstream status, headers and
body, the upstream request issued to the backend (`none` when
`httpClient.Do` was never reached), and how long the handler slept. -/
structure ProxyOutcome where
  status : Nat
  header : String → List String
  body : RespBody
  upstreamReq : Option UpstreamRequest
  sleptSeconds : Nat

/-- The empty header map. -/
def emptyHeader : String → List String := fun _ => []

/-- Header-map update, as Go's `h[k] = v`. -/
def setHeader (h : String → List String) (k : String) (v : List String) :
    String → List String :=
  fun q => if q = k then v else h q

/-- The upstream request `proxyRequest` constructs
(src/unnamed/part_002 lines 31-55): URL
`http://localhost:<port><request-uri>`, the cloned downstream header map
with `X-Forwarded-Host` set to the original `Host`, and the `Host` field
set to `<ClientAddress>:<ClientPort>`. -/
def upstreamRequestOf (r : Request) (tunnel : Tunnel) (port : Nat)
    (bodyBytes : List Nat) : UpstreamRequest :=
  { Method := r.Method
    Url := "http://" ++ ("localhost:" ++ toString port) ++ r.RequestURI
    Host := tunnel.ClientAddress ++ ":" ++ toString tunnel.ClientPort
    Header := setHeader r.Header "X-Forwarded-Host" [r.Host]
    Body := bodyBytes }

/-- Embedding of the forwarding stage of `proxyRequest`
(src/unnamed/part_002 lines 31-73), reached once the Basic-Auth gate has
passed.  `readBody` is the result of `ioutil.ReadAll(r.Body)`, `newReqErr`
the error (if any) of `http.NewRequest`, `doResult` the result of
`httpClient.Do`.  The header map is cloned, `X-Forwarded-Host` is set to
`r.Host`, and the `Host` field is set to
`tunnel.ClientAddress:tunnel.ClientPort`. -/
def proxyForward (r : Request) (tunnel : Tunnel) (port : Nat)
    (readBody : Except String (List Nat)) (newReqErr : Option String)
    (doResult : Except String UpstreamResponse) : ProxyOutcome :=
  match readBody with
  | .error e =>
    { status := 500, header := emptyHeader, body := .text e,
      upstreamReq := none, sleptSeconds := 0 }
  | .ok bodyBytes =>
    match newReqErr with
    | some e =>
      { status := 500, header := emptyHeader, body := .text e,
        upstreamReq := none, sleptSeconds := 0 }
    | none =>
      match doResult with
      | .error e =>
        { status := 502, header := emptyHeader, body := .text e,
          upstreamReq := some (upstreamRequestOf r tunnel port bodyBytes),
          sleptSeconds := 0 }
      | .ok res =>
        { status := res.StatusCode, header := res.Header,
          body := .bytes res.Body,
          upstreamReq := some (upstreamRequestOf r tunnel port bodyBytes),
          sleptSeconds := 0 }

/-- Embedding of `proxyRequest` (src/unnamed/part_002 lines 12-73).
If either auth credential of the tunnel is non-empty, the Basic-Auth gate
runs first: missing credentials answer 401 with `WWW-Authenticate: Basic`;
wrong credentials answer the same and then sleep two seconds; matching
credentials fall through to the forwarding stage. -/
def proxyRequest (r : Request) (tunnel : Tunnel) (port : Nat)
    (readBody : Except String (List Nat)) (newReqErr : Option String)
    (doResult : Except String UpstreamResponse) : ProxyOutcome :=
  if tunnel.AuthUsername ≠ "" ∨ tunnel.AuthPassword ≠ "" then
    match r.BasicAuth with
    | none =>
      { status := 401,
        header := setHeader emptyHeader "WWW-Authenticate" ["Basic"],
        body := .text "", upstreamReq := none, sleptSeconds := 0 }
    | some (username, password) =>
      if username ≠ tunnel.AuthUsername ∨ password ≠ tunnel.AuthPassword then
        { status := 401,
          header := setHeader emptyHeader "WWW-Authenticate" ["Basic"],
          body := .text "", upstreamReq := none, sleptSeconds := 2 }
      else
        proxyForward r tunnel port readBody newReqErr doResult
  else
    proxyForward r tunnel port readBody newReqErr doResult

/-- The Basic-Auth gate passes: either the tunnel requires no credentials,
or the request carries exactly the tunnel's credentials. -/
def authPass (r : Request) (tunnel : Tunnel) : Prop :=
  (tunnel.AuthUsername = "" ∧ tunnel.AuthPassword = "") ∨
    r.BasicAuth = some (tunnel.AuthUsername, tunnel.AuthPassword)

/-- When the Basic-Auth gate passes, `proxyRequest` behaves as its
forwarding stage. -/
theorem proxyRequest_of_authPass (r : Request) (tunnel : Tunnel) (port : Nat)
    (readBody : Except String (List Nat)) (newReqErr : Option String)
    (doResult : Except String UpstreamResponse)
    (hpass : authPass r tunnel) :
    proxyRequest r tunnel port readBody newReqErr doResult =
      proxyForward r tunnel port readBody newReqErr doResult := by
  unfold proxyRequest
  rcases hpass with ⟨hu, hp⟩ | hba
  · simp [hu, hp]
  · by_cases hreq : tunnel.AuthUsername ≠ "" ∨ tunnel.AuthPassword ≠ ""
    · simp [hreq, hba]
    · simp [hreq]

/-- Claim C3: whenever `proxyRequest` issues an upstream request, its
`Host` header equals `<tunnel.ClientAddress>:<tunnel.ClientPort>`, its
`X-Forwarded-Host` header equals the original request's `Host` value
verbatim (so any port suffix is kept), and every other header key carries
exactly the client's cloned header values. -/
theorem proxyRequest_upstream_headers (r : Request) (tunnel : Tunnel)
    (port : Nat) (readBody : Except String (List Nat))
    (newReqErr : Option String) (doResult : Except String UpstreamResponse)
    (req : UpstreamRequest)
    (hreq : (proxyRequest r tunnel port readBody newReqErr doResult).upstreamReq
      = some req) :
    req.Host = tunnel.ClientAddress ++ ":" ++ toString tunnel.ClientPort ∧
    req.Header "X-Forwarded-Host" = [r.Host] ∧
    ∀ k, k ≠ "X-Forwarded-Host" → req.Header k = r.Header k := by
  unfold proxyRequest proxyForward at hreq
  repeat' split at hreq
  all_goals try simp at hreq
  all_goals subst hreq
  all_goals
    exact ⟨rfl, by simp [upstreamRequestOf, setHeader],
      fun k hk => by simp [upstreamRequestOf, setHeader, hk]⟩

/-- A concrete request without credentials for tunnel `tunC3`. -/
def reqC3 : Request :=
  { Method := "GET", Host := "b.example", RequestURI := "/x",
    Header := emptyHeader, BasicAuth := none }

/-- A concrete server-terminated tunnel without Basic-Auth credentials. -/
def tunC3 : Tunnel :=
  { TunnelPort := 9002, ClientAddress := "b.example", ClientPort := 443,
    AuthUsername := "", AuthPassword := "", TlsTermination := "server" }

/-- A concrete upstream response. -/
def resC3 : UpstreamResponse :=
  { StatusCode := 200, Header := emptyHeader, Body := [] }

/-- The upstream request issued for `reqC3` over `tunC3`. -/
def upstreamC3 : UpstreamRequest := upstreamRequestOf reqC3 tunC3 9002 []

/-- Witness for C3 at concrete inputs: the issued upstream request carries
`Host: b.example:443`, `X-Forwarded-Host: b.example`, and an untouched
`Accept` header. -/
theorem proxyRequest_upstream_headers_witness :
    upstreamC3.Host = "b.example:443" ∧
    upstreamC3.Header "X-Forwarded-Host" = ["b.example"] ∧
    upstreamC3.Header "Accept" = reqC3.Header "Accept" := by
  have h := proxyRequest_upstream_headers reqC3 tunC3 9002 (.ok []) none
    (.ok resC3) upstreamC3 rfl
  exact ⟨h.1.trans (by decide), h.2.1.trans (by decide),
    h.2.2 "Accept" (by decide)⟩

/-- Claim C4: for a tunnel with non-empty `AuthUsername` or `AuthPassword`,
a request with no Basic-Auth credentials gets 401 with
`WWW-Authenticate: Basic` and no upstream request; a request with wrong
credentials gets 401 with `WWW-Authenticate: Basic` and the handler sleeps
two seconds before returning; a request with the tunnel's exact username
and password is forwarded to the backend. -/
theorem proxyRequest_basic_auth_gate (r : Request) (tunnel : Tunnel)
    (port : Nat) (bodyBytes : List Nat)
    (doResult : Except String UpstreamResponse)
    (hcreds : tunnel.AuthUsername ≠ "" ∨ tunnel.AuthPassword ≠ "") :
    (r.BasicAuth = none →
      ∀ readBody newReqErr doRes,
        (proxyRequest r tunnel port readBody newReqErr doRes).status = 401 ∧
        (proxyRequest r tunnel port readBody newReqErr doRes).header
          "WWW-Authenticate" = ["Basic"] ∧
        (proxyRequest r tunnel port readBody newReqErr doRes).upstreamReq
          = none) ∧
    (∀ username password, r.BasicAuth = some (username, password) →
      (username ≠ tunnel.AuthUsername ∨ password ≠ tunnel.AuthPassword) →
      ∀ readBody newReqErr doRes,
        (proxyRequest r tunnel port readBody newReqErr doRes).status = 401 ∧
        (proxyRequest r tunnel port readBody newReqErr doRes).header
          "WWW-Authenticate" = ["Basic"] ∧
        (proxyRequest r tunnel port readBody newReqErr doRes).sleptSeconds
          = 2 ∧
        (proxyRequest r tunnel port readBody newReqErr doRes).upstreamReq
          = none) ∧
    (r.BasicAuth = some (tunnel.AuthUsername, tunnel.AuthPassword) →
      (proxyRequest r tunnel port (.ok bodyBytes) none doResult).upstreamReq
        = some (upstreamRequestOf r tunnel port bodyBytes)) := by
  refine ⟨?_, ?_, ?_⟩
  · intro hba readBody newReqErr doRes
    rcases hcreds with h | h <;> simp [proxyRequest, hba, h, setHeader]
  · intro username password hba hne readBody newReqErr doRes
    rcases hcreds with h | h <;> rcases hne with hn | hn <;>
      simp [proxyRequest, hba, h, hn, setHeader]
  · intro hba
    rw [proxyRequest_of_authPass r tunnel port (.ok bodyBytes) none doResult
      (Or.inr hba)]
    cases doResult with
    | error e => rfl
    | ok res => rfl

/-- A concrete tunnel requiring Basic-Auth credentials `u` / `p`. -/
def tunAuth : Tunnel :=
  { TunnelPort := 9002, ClientAddress := "b.example", ClientPort := 443,
    AuthUsername := "u", AuthPassword := "p", TlsTermination := "server" }

/-- A request presenting no credentials. -/
def reqNoCreds : Request :=
  { Method := "GET", Host := "b.example", RequestURI := "/x",
    Header := emptyHeader, BasicAuth := none }

/-- A request presenting the wrong password. -/
def reqWrongCreds : Request :=
  { Method := "GET", Host := "b.example", RequestURI := "/x",
    Header := emptyHeader, BasicAuth := some ("u", "bad") }

/-- A request presenting the exact credentials. -/
def reqGoodCreds : Request :=
  { Method := "GET", Host := "b.example", RequestURI := "/x",
    Header := emptyHeader, BasicAuth := some ("u", "p") }

/-- Witness for C4 at concrete inputs. -/
theorem proxyRequest_basic_auth_gate_witness :
    (proxyRequest reqNoCreds tunAuth 9002 (.ok []) none (.ok resC3)).status
      = 401 ∧
    (proxyRequest reqNoCreds tunAuth 9002 (.ok []) none (.ok resC3)).header
      "WWW-Authenticate" = ["Basic"] ∧
    (proxyRequest reqWrongCreds tunAuth 9002 (.ok []) none (.ok resC3)).status
      = 401 ∧
    (proxyRequest reqWrongCreds tunAuth 9002 (.ok []) none
      (.ok resC3)).sleptSeconds = 2 ∧
    (proxyRequest reqGoodCreds tunAuth 9002 (.ok []) none
      (.ok resC3)).upstreamReq = some (upstreamRequestOf reqGoodCreds tunAuth
      9002 []) := by
  have h1 := proxyRequest_basic_auth_gate reqNoCreds tunAuth 9002 []
    (.ok resC3) (Or.inl (by decide))
  have h2 := proxyRequest_basic_auth_gate reqWrongCreds tunAuth 9002 []
    (.ok resC3) (Or.inl (by decide))
  have h3 := proxyRequest_basic_auth_gate reqGoodCreds tunAuth 9002 []
    (.ok resC3) (Or.inl (by decide))
  refine ⟨(h1.1 rfl (.ok []) none (.ok resC3)).1,
    (h1.1 rfl (.ok []) none (.ok resC3)).2.1, ?_, ?_, h3.2.2 rfl⟩
  · exact (h2.2.1 "u" "bad" rfl (Or.inr (by decide)) (.ok []) none
      (.ok resC3)).1
  · exact (h2.2.1 "u" "bad" rfl (Or.inr (by decide)) (.ok []) none
      (.ok resC3)).2.2.1

/-- Claim C8: once the Basic-Auth gate has passed, a failed body read or a
failed request construction answers HTTP 500 with the error text as the
body, while a failed `httpClient.Do` call to the loopback backend answers
HTTP 502 with the error text as the body. -/
theorem proxyRequest_backend_error_codes (r : Request) (tunnel : Tunnel)
    (port : Nat) (hpass : authPass r tunnel) :
    (∀ e newReqErr doResult,
      (proxyRequest r tunnel port (.error e) newReqErr doResult).status
        = 500 ∧
      (proxyRequest r tunnel port (.error e) newReqErr doResult).body
        = .text e) ∧
    (∀ bodyBytes e doResult,
      (proxyRequest r tunnel port (.ok bodyBytes) (some e) doResult).status
        = 500 ∧
      (proxyRequest r tunnel port (.ok bodyBytes) (some e) doResult).body
        = .text e) ∧
    (∀ bodyBytes e,
      (proxyRequest r tunnel port (.ok bodyBytes) none (.error e)).status
        = 502 ∧
      (proxyRequest r tunnel port (.ok bodyBytes) none (.error e)).body
        = .text e) := by
  refine ⟨?_, ?_, ?_⟩
  · intro e newReqErr doResult
    rw [proxyRequest_of_authPass r tunnel port (.error e) newReqErr doResult
      hpass]
    exact ⟨rfl, rfl⟩
  · intro bodyBytes e doResult
    rw [proxyRequest_of_authPass r tunnel port (.ok bodyBytes) (some e)
      doResult hpass]
    exact ⟨rfl, rfl⟩
  · intro bodyBytes e
    rw [proxyRequest_of_authPass r tunnel port (.ok bodyBytes) none
      (.error e) hpass]
    exact ⟨rfl, rfl⟩

/-- Witness for C8 at concrete inputs. -/
theorem proxyRequest_backend_error_codes_witness :
    (proxyRequest reqC3 tunC3 9002 (.error "read failed") none
      (.ok resC3)).status = 500 ∧
    (proxyRequest reqC3 tunC3 9002 (.ok []) (some "bad request")
      (.ok resC3)).status = 500 ∧
    (proxyRequest reqC3 tunC3 9002 (.ok []) none
      (.error "dial tcp refused")).status = 502 ∧
    (proxyRequest reqC3 tunC3 9002 (.ok []) none
      (.error "dial tcp refused")).body = .text "dial tcp refused" := by
  have h := proxyRequest_backend_error_codes reqC3 tunC3 9002
    (Or.inl ⟨rfl, rfl⟩)
  exact ⟨(h.1 "read failed" none (.ok resC3)).1,
    (h.2.1 [] "bad request" (.ok resC3)).1,
    (h.2.2 [] "dial tcp refused").1,
    (h.2.2 [] "dial tcp refused").2⟩

/-- Claim C9: the proxy buffers the whole client body before building the
upstream request: when the body read fails the response is HTTP 500 and no
upstream request is ever issued, and when an upstream request is issued its
body is exactly the fully read byte sequence. -/
theorem proxyRequest_body_read_atomicity (r : Request) (tunnel : Tunnel)
    (port : Nat) (hpass : authPass r tunnel) :
    (∀ e newReqErr doResult,
      (proxyRequest r tunnel port (.error e) newReqErr doResult).status
        = 500 ∧
      (proxyRequest r tunnel port (.error e) newReqErr doResult).upstreamReq
        = none) ∧
    (∀ bodyBytes doResult req,
      (proxyRequest r tunnel port (.ok bodyBytes) none doResult).upstreamReq
        = some req → req.Body = bodyBytes) := by
  constructor
  · intro e newReqErr doResult
    rw [proxyRequest_of_authPass r tunnel port (.error e) newReqErr doResult
      hpass]
    exact ⟨rfl, rfl⟩
  · intro bodyBytes doResult req hreq
    rw [proxyRequest_of_authPass r tunnel port (.ok bodyBytes) none doResult
      hpass] at hreq
    cases doResult with
    | error e =>
      simp [proxyForward] at hreq
      subst hreq
      rfl
    | ok res =>
      simp [proxyForward] at hreq
      subst hreq
      rfl

/-- Witness for C9 at concrete inputs. -/
theorem proxyRequest_body_read_atomicity_witness :
    (proxyRequest reqC3 tunC3 9002 (.error "unexpected EOF") none
      (.ok resC3)).status = 500 ∧
    (proxyRequest reqC3 tunC3 9002 (.error "unexpected EOF") none
      (.ok resC3)).upstreamReq = none ∧
    (upstreamRequestOf reqC3 tunC3 9002 [104, 105]).Body = [104, 105] := by
  have h := proxyRequest_body_read_atomicity reqC3 tunC3 9002
    (Or.inl ⟨rfl, rfl⟩)
  exact ⟨(h.1 "unexpected EOF" none (.ok resC3)).1,
    (h.1 "unexpected EOF" none (.ok resC3)).2,
    h.2 [104, 105] (.ok resC3) (upstreamRequestOf reqC3 tunC3 9002 [104, 105])
      rfl⟩

/-! ## The `/namedrop/auth-success` handler (boringproxy.go:267-379) -/

/-- A DNS provisioning request as read back by the handler; only
`IsAdminDomain` steers control flow. -/
structure DNSRequest where
  IsAdminDomain : Bool
  deriving DecidableEq

/-- The token the OAuth exchange returns on success. -/
structure OauthToken where
  AccessToken : String
  deriving DecidableEq

/-- One scope entry of the namedrop token data. -/
structure TokenScope where
  Domain : String
  Host : String
  deriving DecidableEq

/-- The namedrop token data: a list of scopes. -/
structure TokenData where
  Scopes : List TokenScope
  deriving DecidableEq

/-- Status and body of the record-creation call's HTTP response. -/
structure RecordsResp where
  StatusCode : Nat
  Body : List Nat
  deriving DecidableEq

/-- The observable outcome of the handler: an HTTP response written with
`WriteHeader`/`WriteString`, an `http.Redirect`, process termination via
`log.Fatal`, or a nil-pointer dereference (the Go code reads
`tok.AccessToken` after only printing the failed exchange's error, and the
HTTP server aborts the handler without writing a response). -/
inductive AuthSuccessOutcome where
  | response (status : Nat) (body : String)
  | redirect (status : Nat) (location : String)
  | fatalExit
  | nilDeref
  deriving DecidableEq

/-- Results of the external calls the handler makes, in program order:
`db.GetDNSRequest`, `oauthConf.Exchange`, the `token-data` GET (its body as
read), `json.Unmarshal` of that body, `json.Marshal` of the record-creation
request, `http.NewRequest`, `httpClient.Do` on the records URL,
`io.ReadAll` of its body, and `certConfig.ManageSync` for the new admin
domain.  `adminDomain` is `db.GetAdminDomain()` at redirect time. -/
structure AuthSuccessEnv where
  adminDomain : String
  getDNSRequest : Except String DNSRequest
  exchange : Except String OauthToken
  tokenDataGet : Except String (List Nat)
  unmarshal : List Nat → Except String TokenData
  marshalErr : Option String
  newReqErr : Option String
  doRecords : Except String RecordsResp
  readRecordsBody : Except String (List Nat)
  manageSyncErr : Option String

/-- Embedding of the `/namedrop/auth-success` branch of the `"/"` handler
(boringproxy.go:267-379).  Each guarded error in the Go code maps to its
outcome; Go's `len(Scopes) < 1` check followed by indexing `Scopes[0]` is
the match on the scope list; note that a failed `Exchange` is only printed
(`fmt.Println`) and the nil token is then dereferenced, and that a failed
`ManageSync` for the admin domain runs `log.Fatal`. -/
def authSuccessHandler (env : AuthSuccessEnv) : AuthSuccessOutcome :=
  match env.getDNSRequest with
  | .error e => .response 500 e
  | .ok dnsRequest =>
    match env.exchange with
    | .error _ => .nilDeref
    | .ok _tok =>
      match env.tokenDataGet with
      | .error e => .response 500 e
      | .ok bodyJson =>
        match env.unmarshal bodyJson with
        | .error e => .response 500 e
        | .ok namedropTokenData =>
          match namedropTokenData.Scopes with
          | [] => .response 500 "No scopes returned"
          | scope :: _ =>
            match env.marshalErr with
            | some e => .response 500 e
            | none =>
              match env.newReqErr with
              | some e => .response 500 e
              | none =>
                match env.doRecords with
                | .error e => .response 500 e
                | .ok resp =>
                  match env.readRecordsBody with
                  | .error e => .response 500 e
                  | .ok _body =>
                    if resp.StatusCode ≠ 200 then
                      .response 500 "Invalid status code"
                    else
                      if dnsRequest.IsAdminDomain then
                        match env.manageSyncErr with
                        | some _ => .fatalExit
                        | none =>
                          .redirect 303
                            ("https://" ++ (scope.Host ++ "." ++ scope.Domain))
                      else
                        .redirect 303
                          ("https://" ++ env.adminDomain ++
                            "/edit-tunnel?domain=" ++
                            (scope.Host ++ "." ++ scope.Domain))

/-- An environment in which every external call succeeds. -/
def envOk : AuthSuccessEnv :=
  { adminDomain := "admin.example"
    getDNSRequest := .ok { IsAdminDomain := true }
    exchange := .ok { AccessToken := "token" }
    tokenDataGet := .ok []
    unmarshal := fun _ => .ok { Scopes := [{ Domain := "example", Host := "admin" }] }
    marshalErr := none
    newReqErr := none
    doRecords := .ok { StatusCode := 200, Body := [] }
    readRecordsBody := .ok []
    manageSyncErr := none }

/-- Counterexample for C5 at explicit concrete inputs: a failed OAuth code
exchange does not produce an HTTP 500 response (the error is printed and
the nil token is dereferenced), and a failed certificate acquisition for
the new admin domain does not produce an HTTP 500 response (the process
exits via `log.Fatal`); the all-success run redirects, confirming the
failing steps alone change the outcome. -/
theorem authSuccess_failures_not_all_500 :
    authSuccessHandler { envOk with exchange := .error "oauth: server response missing access_token" }
      = .nilDeref ∧
    authSuccessHandler { envOk with manageSyncErr := some "acme: challenge failed" }
      = .fatalExit ∧
    authSuccessHandler envOk = .redirect 303 "https://admin.example" := by
  refine ⟨rfl, rfl, ?_⟩
  decide

/-- Claim C5 as amended: failures of `GetDNSRequest`, of the token-data
fetch, of its JSON decoding, an empty scope list, failures of the record
marshalling, of building or sending the record-creation request, of reading
its body, and a non-200 record-creation status each surface as HTTP 500;
but a failed OAuth code exchange is only printed and the nil token is then
dereferenced (no HTTP 500 is written), and a failed certificate acquisition
for the new admin domain terminates the process via `log.Fatal` (no HTTP
500 is written). -/
theorem authSuccess_error_surface (env : AuthSuccessEnv) :
    (∀ e, authSuccessHandler { env with getDNSRequest := .error e }
      = .response 500 e) ∧
    (∀ d e, authSuccessHandler
      { env with getDNSRequest := .ok d, exchange := .error e }
      = .nilDeref) ∧
    (∀ d t e, authSuccessHandler
      { env with
        getDNSRequest := .ok d, exchange := .ok t,
        tokenDataGet := .error e }
      = .response 500 e) ∧
    (∀ d t bs e, authSuccessHandler
      { env with
        getDNSRequest := .ok d, exchange := .ok t,
        tokenDataGet := .ok bs, unmarshal := fun _ => .error e }
      = .response 500 e) ∧
    (∀ d t bs, authSuccessHandler
      { env with
        getDNSRequest := .ok d, exchange := .ok t,
        tokenDataGet := .ok bs, unmarshal := fun _ => .ok { Scopes := [] } }
      = .response 500 "No scopes returned") ∧
    (∀ d t bs sc e, authSuccessHandler
      { env with
        getDNSRequest := .ok d, exchange := .ok t,
        tokenDataGet := .ok bs, unmarshal := fun _ => .ok { Scopes := [sc] },
        marshalErr := some e }
      = .response 500 e) ∧
    (∀ d t bs sc e, authSuccessHandler
      { env with
        getDNSRequest := .ok d, exchange := .ok t,
        tokenDataGet := .ok bs, unmarshal := fun _ => .ok { Scopes := [sc] },
        marshalErr := none, newReqErr := some e }
      = .response 500 e) ∧
    (∀ d t bs sc e, authSuccessHandler
      { env with
        getDNSRequest := .ok d, exchange := .ok t,
        tokenDataGet := .ok bs, unmarshal := fun _ => .ok { Scopes := [sc] },
        marshalErr := none, newReqErr := none, doRecords := .error e }
      = .response 500 e) ∧
    (∀ d t bs sc r2 e, authSuccessHandler
      { env with
        getDNSRequest := .ok d, exchange := .ok t,
        tokenDataGet := .ok bs, unmarshal := fun _ => .ok { Scopes := [sc] },
        marshalErr := none, newReqErr := none, doRecords := .ok r2,
        readRecordsBody := .error e }
      = .response 500 e) ∧
    (∀ d t bs sc st b2 b3, st ≠ 200 → authSuccessHandler
      { env with
        getDNSRequest := .ok d, exchange := .ok t,
        tokenDataGet := .ok bs, unmarshal := fun _ => .ok { Scopes := [sc] },
        marshalErr := none, newReqErr := none,
        doRecords := .ok { StatusCode := st, Body := b2 },
        readRecordsBody := .ok b3 }
      = .response 500 "Invalid status code") ∧
    (∀ t bs sc b2 b3 e, authSuccessHandler
      { env with
        getDNSRequest := .ok { IsAdminDomain := true },
        exchange := .ok t, tokenDataGet := .ok bs,
        unmarshal := fun _ => .ok { Scopes := [sc] },
        marshalErr := none, newReqErr := none,
        doRecords := .ok { StatusCode := 200, Body := b2 },
        readRecordsBody := .ok b3, manageSyncErr := some e }
      = .fatalExit) := by
  refine ⟨fun e => rfl, fun d e => rfl, fun d t e => rfl, fun d t bs e => rfl,
    fun d t bs => rfl, fun d t bs sc e => rfl, fun d t bs sc e => rfl,
    fun d t bs sc e => rfl, fun d t bs sc r2 e => rfl, ?_,
    fun t bs sc b2 b3 e => rfl⟩
  intro d t bs sc st b2 b3 h
  simp [authSuccessHandler, h]

/-- Witness for the amended C5 at concrete inputs: a 404 from the record
creation call yields HTTP 500 `Invalid status code`, and a failed
certificate acquisition on the admin path exits fatally. -/
theorem authSuccess_error_surface_witness :
    authSuccessHandler
      { envOk with
        getDNSRequest := .ok { IsAdminDomain := true },
        exchange := .ok { AccessToken := "token" },
        tokenDataGet := .ok [],
        unmarshal := fun _ => .ok { Scopes := [{ Domain := "example", Host := "admin" }] },
        marshalErr := none, newReqErr := none,
        doRecords := .ok { StatusCode := 404, Body := [] },
        readRecordsBody := .ok [] }
      = .response 500 "Invalid status code" ∧
    authSuccessHandler
      { envOk with
        getDNSRequest := .ok { IsAdminDomain := true },
        exchange := .ok { AccessToken := "token" },
        tokenDataGet := .ok [],
        unmarshal := fun _ => .ok { Scopes := [{ Domain := "example", Host := "admin" }] },
        marshalErr := none, newReqErr := none,
        doRecords := .ok { StatusCode := 200, Body := [] },
        readRecordsBody := .ok [],
        manageSyncErr := some "acme: dns propagation failed" }
      = .fatalExit := by
  constructor
  · exact (authSuccess_error_surface envOk).2.2.2.2.2.2.2.2.2.1
      { IsAdminDomain := true } { AccessToken := "token" } []
      { Domain := "example", Host := "admin" } 404 [] [] (by decide)
  · exact (authSuccess_error_surface envOk).2.2.2.2.2.2.2.2.2.2
      { AccessToken := "token" } [] { Domain := "example", Host := "admin" }
      [] [] "acme: dns propagation failed"

/-! ## HTTP port server (boringproxy.go:419-436) and `redirectTLS` -/

/-- A plain HTTP redirect response: status and `Location` header. -/
structure RedirectResponse where
  status : Nat
  location : String
  deriving DecidableEq

/-- Embedding of the `redirectTLS` closure (boringproxy.go:426-429): it
answers `http.StatusMovedPermanently` (301) with location
`https://<r.Host>:<httpsPort><r.RequestURI>`. -/
def redirectTLS (httpsPort : Nat) (host : String) (requestURI : String) :
    RedirectResponse :=
  { status := 301
    location := "https://" ++ host ++ ":" ++ toString httpsPort ++ requestURI }

/-- How a request arriving on `http_port` is handled
(boringproxy.go:419-436): with `allow_http` the default mux (the `"/"`
handler) serves it; otherwise the handler passed to `ListenAndServe` is
exactly `http.HandlerFunc(redirectTLS)` — the source interposes no ACME
HTTP-01 challenge handler around it. -/
inductive HttpPortOutcome where
  | handledByMux
  | redirect (resp : RedirectResponse)
  deriving DecidableEq

/-- Embedding of the HTTP-port server selection and per-request behaviour
(boringproxy.go:419-436). -/
def httpPortHandle (allowHttp : Bool) (httpsPort : Nat) (host : String)
    (requestURI : String) : HttpPortOutcome :=
  if allowHttp then .handledByMux
  else .redirect (redirectTLS httpsPort host requestURI)

/-- Counterexample for C6 at an explicit concrete input: with
`allow_http = false`, an ACME HTTP-01 challenge request
(`/.well-known/acme-challenge/token123`) on the HTTP port receives the
HTTP 301 redirect, not a challenge response — no challenge handler is
interposed before the redirect in the source. -/
theorem httpPort_challenge_gets_redirect :
    httpPortHandle false 443 "h.example" "/.well-known/acme-challenge/token123"
      = .redirect
        { status := 301
          location := "https://h.example:443/.well-known/acme-challenge/token123" } := by
  decide

/-- Claim C6 as amended: with `allow_http = false` the handler bound to the
HTTP port is the bare `redirectTLS` handler; every request on `http_port`,
ACME HTTP-01 challenge requests included, is answered by the 301 redirect,
with no challenge handler interposed. -/
theorem httpPort_handler_is_bare_redirect (httpsPort : Nat) (host : String)
    (requestURI : String) :
    httpPortHandle false httpsPort host requestURI
      = .redirect (redirectTLS httpsPort host requestURI) ∧
    (httpPortHandle false httpsPort host requestURI ≠ .handledByMux) := by
  constructor
  · rfl
  · intro h
    exact HttpPortOutcome.noConfusion h

/-- Witness for the amended C6 at a concrete input. -/
theorem httpPort_handler_is_bare_redirect_witness :
    httpPortHandle false 443 "app.example" "/index.html"
      = .redirect (redirectTLS 443 "app.example" "/index.html") ∧
    httpPortHandle false 443 "app.example" "/index.html" ≠ .handledByMux :=
  httpPort_handler_is_bare_redirect 443 "app.example" "/index.html"

/-- Claim C7: with `allow_http = false`, every request received on
`http_port` is answered with HTTP 301 whose `Location` is
`https://<host>:<https_port><request-uri>` where `<request-uri>` keeps path
and query; in particular a GET for `http://h/p?q=1` against
`https_port = 8443` yields `Location: https://h:8443/p?q=1`. -/
theorem httpPort_redirect_location (httpsPort : Nat) (host : String)
    (requestURI : String) :
    httpPortHandle false httpsPort host requestURI
      = .redirect
        { status := 301
          location := "https://" ++ host ++ ":" ++ toString httpsPort ++ requestURI } ∧
    httpPortHandle false 8443 "h" "/p?q=1"
      = .redirect { status := 301, location := "https://h:8443/p?q=1" } := by
  constructor
  · rfl
  · decide

/-! ## Startup user and token initialisation (boringproxy.go:173-193) -/

/-- The user and token tables of the store, as the startup code reads them:
`GetUsers` yields named users with their `is_admin` flag, `GetTokens`
yields tokens with their owner. -/
structure StoreState where
  users : List (String × Bool)
  tokens : List (String × String)
  deriving DecidableEq

/-- Modelled from the spec: `AddUser(name, isAdmin)` of the storage layer
(not under src/) records a user with the given name and admin flag. -/
def addUser (db : StoreState) (name : String) (isAdmin : Bool) : StoreState :=
  { db with users := db.users ++ [(name, isAdmin)] }

/-- Modelled from the spec: `AddToken(owner)` of the storage layer (not
under src/) mints an opaque random token owned by `owner`; the minted
token string is passed in explicitly. -/
def addToken (db : StoreState) (token owner : String) : StoreState :=
  { db with tokens := db.tokens ++ [(token, owner)] }

/-- Embedding of the admin-initialisation block of `Listen`
(boringproxy.go:173-193): when `GetUsers()` is empty, add the user
`"admin"` with the admin flag and mint one token owned by `"admin"`;
otherwise leave the store untouched.  `newToken` is the random token
`AddToken` mints; the `AddToken` failure path calls `log.Fatal`, so every
successful startup passes through this function. -/
def initAdminUser (db : StoreState) (newToken : String) : StoreState :=
  if db.users.length = 0 then
    addToken (addUser db "admin" true) newToken "admin"
  else db

/-- Counterexample for C10 at an explicit concrete input: a store that
already holds a user (`bob`, not admin) and no tokens is left untouched by
startup, so after a successful startup no admin-owned token exists. -/
theorem initAdminUser_no_admin_token :
    (initAdminUser { users := [("bob", false)], tokens := [] } "tok").tokens
      = [] ∧
    ((initAdminUser { users := [("bob", false)], tokens := [] } "tok").tokens.any
      (fun p => p.2 = "admin")) = false := by
  decide

/-- Claim C10 as amended: at startup, if the store contains no users, the
process creates the user `"admin"` with the `is_admin` flag set and mints
one token owned by `"admin"`; consequently, after every successful startup
from a store with no users, at least one admin-owned token exists. -/
theorem initAdminUser_creates_admin (db : StoreState) (newToken : String)
    (hempty : db.users = []) :
    ("admin", true) ∈ (initAdminUser db newToken).users ∧
    (newToken, "admin") ∈ (initAdminUser db newToken).tokens ∧
    ∃ p ∈ (initAdminUser db newToken).tokens, p.2 = "admin" := by
  have hlen : db.users.length = 0 := by simp [hempty]
  refine ⟨?_, ?_, ?_⟩
  · simp [initAdminUser, hlen, addUser, addToken, hempty]
  · simp [initAdminUser, hlen, addUser, addToken]
  · exact ⟨(newToken, "admin"), by simp [initAdminUser, hlen, addUser, addToken], rfl⟩

/-- Witness for the amended C10 at a concrete empty store. -/
theorem initAdminUser_creates_admin_witness :
    ("admin", true) ∈ (initAdminUser { users := [], tokens := [] } "tok").users ∧
    ("tok", "admin") ∈ (initAdminUser { users := [], tokens := [] } "tok").tokens := by
  have h := initAdminUser_creates_admin { users := [], tokens := [] } "tok" rfl
  exact ⟨h.1, h.2.1⟩

end Boringproxy
